import Mathlib

/-!
# Verification of `loadBalancingSwitch.py`

A shallow embedding of the POX round-robin virtual-IP load balancing switch.

Network addresses (`IPAddr`) and hardware identities (`EthAddr`) are modelled
as natural numbers: an IPv4 address `a.b.c.d` is the 32-bit value
`((a*256+b)*256+c)*256+d` and an Ethernet address is its 48-bit value.
The OpenFlow connection handle (`event.connection`) is modelled as a natural
number; the `flowTable` field is `Option Nat` (`none` models Python `None`).

A Python runtime error (calling `.send` on `None`, or an out-of-range list
index) is modelled by the handler returning `none`; a normal return yields
`some (newState, outputs)` where `outputs` lists the OpenFlow messages sent
via `self.flowTable.send(...)` in order.
-/

/-- `ethernet.ARP_TYPE` constant from POX. -/
def ARP_TYPE : Nat := 0x0806

/-- `arp.REQUEST` opcode constant from POX. -/
def ARP_REQUEST : Nat := 1

/-- `arp.REPLY` opcode constant from POX. -/
def ARP_REPLY : Nat := 2

/-- `of.OFPP_NONE` port constant. -/
def OFPP_NONE : Nat := 0xffff

/-- `of.OFPFC_ADD`, the default `ofp_flow_mod` command. -/
def OFPFC_ADD : Nat := 0

/-- `of.OFPFC_DELETE` flow-mod command constant. -/
def OFPFC_DELETE : Nat := 3

/-- Numeric value of the IPv4 address `a.b.c.d`. -/
def ipv4 (a b c d : Nat) : Nat := ((a * 256 + b) * 256 + c) * 256 + d

/-- The parsed ARP packet fields the handler reads (`packet.opcode`,
`packet.hwsrc`, `packet.hwdst`, `packet.protosrc`, `packet.protodst`). -/
structure ArpPacket where
  opcode : Nat
  hwsrc : Nat
  hwdst : Nat
  protosrc : Nat
  protodst : Nat
  deriving DecidableEq, Repr

/-- A `PacketIn` event: ingress port (`event.port`), the Ethernet type of the
parsed frame (`event.parsed.type`) and the parsed payload (`event.parsed.next`),
viewed through the ARP fields the handler may read.  When `ethType ≠ ARP_TYPE`
the handler never reads `pkt`, matching the short-circuit in the source. -/
structure PacketInEvent where
  port : Nat
  ethType : Nat
  pkt : ArpPacket
  deriving DecidableEq, Repr

/-- `of.ofp_match` restricted to the fields the source ever sets
(`dl_type`, `nw_proto`, `in_port`, `nw_src`, `nw_dst`); `none` is an
unset (wildcard) field. -/
structure OfpMatch where
  dl_type : Option Nat := none
  nw_proto : Option Nat := none
  in_port : Option Nat := none
  nw_src : Option Nat := none
  nw_dst : Option Nat := none
  deriving DecidableEq, Repr

/-- The OpenFlow actions the source appends:
`ofp_action_nw_addr.set_dst`, `ofp_action_nw_addr.set_src`,
`ofp_action_output`. -/
inductive OfpAction where
  | set_dst (addr : Nat)
  | set_src (addr : Nat)
  | output (port : Nat)
  deriving DecidableEq, Repr

/-- The Ethernet frame built for the ARP reply (`ether` in the source),
with its ARP payload. -/
structure EtherFrame where
  src : Nat
  dst : Nat
  ethType : Nat
  payload : ArpPacket
  deriving DecidableEq, Repr

/-- A message sent through `self.flowTable.send(...)`: either an
`ofp_flow_mod` (a rule-installation or rule-deletion intent) or an
`ofp_packet_out` (an emitted packet with its action list). -/
inductive Output where
  | flowMod (command : Nat) (m : OfpMatch) (actions : List OfpAction)
  | packetOut (in_port : Nat) (frame : EtherFrame) (actions : List OfpAction)
  deriving DecidableEq, Repr

/-- The mutable state of the `LoadBalancer` object (its instance fields). -/
structure LoadBalancer where
  virtualIP : Nat
  clientIPs : List Nat
  clientMACs : List Nat
  serverIPs : List Nat
  serverMACs : List Nat
  flowTable : Option Nat
  nextServerIndex : Nat
  deriving DecidableEq, Repr

/-- `LoadBalancer.__init__`: hard-coded virtual IP `10.0.0.10`, server pool
`[10.0.0.5, 10.0.0.6]` with MACs `[5, 6]`, empty client registry,
no connection, cursor `0`. -/
def LoadBalancer.init : LoadBalancer where
  virtualIP := ipv4 10 0 0 10
  clientIPs := []
  clientMACs := []
  serverIPs := [ipv4 10 0 0 5, ipv4 10 0 0 6]
  serverMACs := [5, 6]
  flowTable := none
  nextServerIndex := 0

/-- The ARP reply and enclosing Ethernet frame built at lines 68–79 of the
source, wrapped in the `ofp_packet_out` of lines 81–83: `in_port = OFPP_NONE`,
data = the frame, actions = `[output(event.port)]`. -/
def mkReplyOut (sourceIP sourceMAC : Nat) (packet : ArpPacket) (eventPort : Nat) : Output :=
  Output.packetOut OFPP_NONE
    { src := sourceMAC
      dst := packet.hwsrc
      ethType := ARP_TYPE
      payload :=
        { opcode := ARP_REPLY
          hwsrc := sourceMAC
          hwdst := packet.hwsrc
          protosrc := sourceIP
          protodst := packet.protosrc } }
    [OfpAction.output eventPort]

/-- `_handle_PacketIn`.  Returns `none` when the Python code would raise
(sending on `flowTable = None`, or a list index out of range), otherwise
`some (state', sent)` with the messages sent in order.  The branch structure
mirrors the source: ARP-request guard, then `protodst == virtualIP`, then
`protodst in clientIPs`, else drop. -/
def handlePacketIn (lb : LoadBalancer) (ev : PacketInEvent) :
    Option (LoadBalancer × List Output) :=
  let packet := ev.pkt
  if ev.ethType = ARP_TYPE ∧ packet.opcode = ARP_REQUEST then
    if packet.protodst = lb.virtualIP then
      -- lines 37-50: client asking for the virtual IP
      let sourceIP := lb.virtualIP
      match lb.serverMACs.get? lb.nextServerIndex with
      | none => none
      | some sourceMAC =>
        if packet.protosrc ∈ lb.clientIPs then
          -- existing client: no registration, only the ARP reply
          match lb.flowTable with
          | none => none
          | some _ => some (lb, [mkReplyOut sourceIP sourceMAC packet ev.port])
        else
          match lb.serverIPs.get? lb.nextServerIndex with
          | none => none
          | some dstIP =>
            match lb.flowTable with
            | none => none
            | some _ =>
              let ruleMsg := Output.flowMod OFPFC_ADD
                { dl_type := some 0x0800
                  nw_proto := some 1
                  in_port := some ev.port
                  nw_dst := some lb.virtualIP }
                [OfpAction.set_dst dstIP, OfpAction.output (lb.nextServerIndex + 5)]
              let lb1 : LoadBalancer :=
                { lb with
                  clientIPs := lb.clientIPs ++ [packet.protosrc]
                  clientMACs := lb.clientMACs ++ [packet.hwsrc]
                  nextServerIndex := (lb.nextServerIndex + 1) % lb.serverMACs.length }
              some (lb1, [ruleMsg, mkReplyOut sourceIP sourceMAC packet ev.port])
    else if packet.protodst ∈ lb.clientIPs then
      -- lines 52-62: server asking for a listed client
      let clientIndex := lb.clientIPs.indexOf packet.protodst
      let sourceIP := packet.protodst
      match lb.clientMACs.get? clientIndex with
      | none => none
      | some sourceMAC =>
        match lb.flowTable with
        | none => none
        | some _ =>
          let ruleMsg := Output.flowMod OFPFC_ADD
            { dl_type := some 0x0800
              nw_proto := some 1
              in_port := some ev.port
              nw_src := some packet.protosrc
              nw_dst := some packet.protodst }
            [OfpAction.set_src lb.virtualIP, OfpAction.output (clientIndex + 1)]
          some (lb, [ruleMsg, mkReplyOut sourceIP sourceMAC packet ev.port])
    else
      -- line 64: irrelevant ARP request, dropped
      some (lb, [])
  else
    -- not an ARP request: the handler body is skipped entirely
    some (lb, [])

/-- `_handle_ConnectionUp`: record the connection and delete all rules
(`ofp_flow_mod(command=OFPFC_DELETE)` with a default match and no actions). -/
def handleConnectionUp (lb : LoadBalancer) (conn : Nat) : LoadBalancer × List Output :=
  ({ lb with flowTable := some conn },
   [Output.flowMod OFPFC_DELETE {} []])

/-- An event delivered to the `LoadBalancer` listeners. -/
inductive Event where
  | packetIn (ev : PacketInEvent)
  | connectionUp (conn : Nat)
  deriving DecidableEq, Repr

/-- One event step of the load balancer. -/
def step (lb : LoadBalancer) (e : Event) : Option (LoadBalancer × List Output) :=
  match e with
  | Event.packetIn ev => handlePacketIn lb ev
  | Event.connectionUp c => some (handleConnectionUp lb c)

/-- Process a list of events in order, collecting all sent messages;
`none` as soon as any step raises. -/
def run (lb : LoadBalancer) : List Event → Option (LoadBalancer × List Output)
  | [] => some (lb, [])
  | e :: es =>
    match step lb e with
    | none => none
    | some (lb1, outs1) =>
      match run lb1 es with
      | none => none
      | some (lb2, outs2) => some (lb2, outs1 ++ outs2)

/-- States reachable from `LoadBalancer.init` by non-raising steps. -/
inductive Reachable : LoadBalancer → Prop where
  | start : Reachable LoadBalancer.init
  | next (lb lb' : LoadBalancer) (e : Event) (outs : List Output)
      (hr : Reachable lb) (hs : step lb e = some (lb', outs)) : Reachable lb'

/-- The case analysis of §4.3 of the design (AddressResolutionClassifier),
read off from the branch structure of `_handle_PacketIn`. -/
inductive ArpCase where
  | clientToVirtual
  | backendToClient
  | irrelevant
  deriving DecidableEq, Repr

/-- Classification of an ARP request, mirroring the `if`/`elif`/`else`
chain at lines 37, 52 and 64 of the source. -/
def classify (lb : LoadBalancer) (packet : ArpPacket) : ArpCase :=
  if packet.protodst = lb.virtualIP then ArpCase.clientToVirtual
  else if packet.protodst ∈ lb.clientIPs then ArpCase.backendToClient
  else ArpCase.irrelevant

/-- The `PacketIn` event for an ARP request from client `ip` (with hardware
identity `mac`) for the virtual IP `10.0.0.10`, arriving on `port`. -/
def clientReqPkt (ip mac port : Nat) : PacketInEvent where
  port := port
  ethType := ARP_TYPE
  pkt :=
    { opcode := ARP_REQUEST
      hwsrc := mac
      hwdst := 0
      protosrc := ip
      protodst := ipv4 10 0 0 10 }

/-- `clientReqPkt` as an `Event`. -/
def clientReq (ip mac port : Nat) : Event :=
  Event.packetIn (clientReqPkt ip mac port)

/-- The `PacketIn` event for an ARP request from a backend at `srcIP`/`srcMAC`
for address `target`, arriving on `port`. -/
def backendReqPkt (srcIP srcMAC target port : Nat) : PacketInEvent where
  port := port
  ethType := ARP_TYPE
  pkt :=
    { opcode := ARP_REQUEST
      hwsrc := srcMAC
      hwdst := 0
      protosrc := srcIP
      protodst := target }

/-- A load-balancer state with the hard-coded configuration of
`LoadBalancer.init`, an attached connection `c`, client registry `R`/`M`
and round-robin cursor `k`. -/
def mkState (R M : List Nat) (c k : Nat) : LoadBalancer where
  virtualIP := ipv4 10 0 0 10
  clientIPs := R
  clientMACs := M
  serverIPs := [ipv4 10 0 0 5, ipv4 10 0 0 6]
  serverMACs := [5, 6]
  flowTable := some c
  nextServerIndex := k

/-- Whether an output is an `ofp_packet_out` (an emitted packet). -/
def isPacketOut : Output → Bool
  | Output.packetOut _ _ _ => true
  | Output.flowMod _ _ _ => false

/-- The event is an ARP request, addressed to the virtual IP, from a source
address not yet in the client registry: the condition under which the source
registers a new client (lines 35, 37 and 40). -/
def isNewClientRegistration (lb : LoadBalancer) (e : Event) : Prop :=
  match e with
  | Event.packetIn ev =>
      ev.ethType = ARP_TYPE ∧ ev.pkt.opcode = ARP_REQUEST ∧
      ev.pkt.protodst = lb.virtualIP ∧ ev.pkt.protosrc ∉ lb.clientIPs
  | Event.connectionUp _ => False

/-- The two messages sent when the `k`-th backend is assigned to a new
client `(ip, mac, port)`: the flow rule rewriting the destination to backend
`k`'s IP and outputting to port `k + 5`, and the ARP reply from the virtual
IP with backend `k`'s hardware identity. -/
def newClientOut (k : Nat) (t : Nat × Nat × Nat) : List Output :=
  [Output.flowMod OFPFC_ADD
     { dl_type := some 0x0800
       nw_proto := some 1
       in_port := some t.2.2
       nw_dst := some LoadBalancer.init.virtualIP }
     [OfpAction.set_dst (LoadBalancer.init.serverIPs.getD k 0),
      OfpAction.output (k + 5)],
   mkReplyOut LoadBalancer.init.virtualIP (LoadBalancer.init.serverMACs.getD k 0)
     (clientReqPkt t.1 t.2.1 t.2.2).pkt t.2.2]

/-- Messages sent for a sequence of new clients where the client at
(0-based) sequence position `i` is assigned backend index `i % 2`. -/
def outsFromIdx : Nat → List (Nat × Nat × Nat) → List Output
  | _, [] => []
  | i, t :: ts => newClientOut (i % 2) t ++ outsFromIdx (i + 1) ts

/-- The state invariant: no duplicate client address, registry lists of equal
length, cursor within the backend pool. -/
def StateInv (lb : LoadBalancer) : Prop :=
  lb.clientIPs.Nodup ∧ lb.clientMACs.length = lb.clientIPs.length ∧
  lb.nextServerIndex < lb.serverMACs.length

/-- Case analysis of a non-raising `_handle_PacketIn` step: either no new client
is registered and the registry, cursor and configuration are untouched, or the
event is a new-client registration and exactly one entry is appended to each
registry list while the cursor advances by one mod the pool size. -/
theorem handlePacketIn_eq_some_cases (lb : LoadBalancer) (ev : PacketInEvent)
    (lb' : LoadBalancer) (outs : List Output)
    (h : handlePacketIn lb ev = some (lb', outs)) :
    (¬ isNewClientRegistration lb (Event.packetIn ev) ∧
      lb'.clientIPs = lb.clientIPs ∧ lb'.clientMACs = lb.clientMACs ∧
      lb'.nextServerIndex = lb.nextServerIndex ∧
      lb'.virtualIP = lb.virtualIP ∧ lb'.serverIPs = lb.serverIPs ∧
      lb'.serverMACs = lb.serverMACs ∧ lb'.flowTable = lb.flowTable) ∨
    (isNewClientRegistration lb (Event.packetIn ev) ∧
      lb'.clientIPs = lb.clientIPs ++ [ev.pkt.protosrc] ∧
      lb'.clientMACs = lb.clientMACs ++ [ev.pkt.hwsrc] ∧
      lb'.nextServerIndex = (lb.nextServerIndex + 1) % lb.serverMACs.length ∧
      lb'.virtualIP = lb.virtualIP ∧ lb'.serverIPs = lb.serverIPs ∧
      lb'.serverMACs = lb.serverMACs ∧ lb'.flowTable = lb.flowTable ∧
      0 < lb.serverMACs.length) := by
  unfold handlePacketIn at h
  dsimp only at h
  by_cases harp : ev.ethType = ARP_TYPE ∧ ev.pkt.opcode = ARP_REQUEST
  · rw [if_pos harp] at h
    by_cases hdst : ev.pkt.protodst = lb.virtualIP
    · rw [if_pos hdst] at h
      cases hm : lb.serverMACs.get? lb.nextServerIndex with
      | none => rw [hm] at h; exact Option.noConfusion h
      | some sourceMAC =>
        rw [hm] at h
        dsimp only at h
        by_cases hmem : ev.pkt.protosrc ∈ lb.clientIPs
        · rw [if_pos hmem] at h
          cases hft : lb.flowTable with
          | none => rw [hft] at h; exact Option.noConfusion h
          | some conn =>
            rw [hft] at h
            dsimp only at h
            obtain ⟨h1, -⟩ := Prod.mk.injEq .. ▸ Option.some.inj h
            subst h1
            exact Or.inl ⟨fun hn => hn.2.2.2 hmem, rfl, rfl, rfl, rfl, rfl, rfl, hft⟩
        · rw [if_neg hmem] at h
          cases hip : lb.serverIPs.get? lb.nextServerIndex with
          | none => rw [hip] at h; exact Option.noConfusion h
          | some dstIP =>
            rw [hip] at h
            dsimp only at h
            cases hft : lb.flowTable with
            | none => rw [hft] at h; exact Option.noConfusion h
            | some conn =>
              rw [hft] at h
              dsimp only at h
              obtain ⟨h1, -⟩ := Prod.mk.injEq .. ▸ Option.some.inj h
              subst h1
              refine Or.inr ⟨⟨harp.1, harp.2, hdst, hmem⟩, rfl, rfl, rfl, rfl, rfl, rfl, rfl, ?_⟩
              have : lb.nextServerIndex < lb.serverMACs.length := by
                by_contra hlen
                rw [List.get?_eq_none.mpr (Nat.le_of_not_lt hlen)] at hm
                exact Option.noConfusion hm
              omega
    · rw [if_neg hdst] at h
      by_cases hmem : ev.pkt.protodst ∈ lb.clientIPs
      · rw [if_pos hmem] at h
        cases hmac : lb.clientMACs.get? (lb.clientIPs.indexOf ev.pkt.protodst) with
        | none => rw [hmac] at h; exact Option.noConfusion h
        | some sourceMAC =>
          rw [hmac] at h
          dsimp only at h
          cases hft : lb.flowTable with
          | none => rw [hft] at h; exact Option.noConfusion h
          | some conn =>
            rw [hft] at h
            dsimp only at h
            obtain ⟨h1, -⟩ := Prod.mk.injEq .. ▸ Option.some.inj h
            subst h1
            exact Or.inl ⟨fun hn => hdst hn.2.2.1, rfl, rfl, rfl, rfl, rfl, rfl, hft⟩
      · rw [if_neg hmem] at h
        obtain ⟨h1, -⟩ := Prod.mk.injEq .. ▸ Option.some.inj h
        subst h1
        exact Or.inl ⟨fun hn => hdst hn.2.2.1, rfl, rfl, rfl, rfl, rfl, rfl, rfl⟩
  · rw [if_neg harp] at h
    obtain ⟨h1, -⟩ := Prod.mk.injEq .. ▸ Option.some.inj h
    subst h1
    exact Or.inl ⟨fun hn => harp ⟨hn.1, hn.2.1⟩, rfl, rfl, rfl, rfl, rfl, rfl, rfl⟩

/-- Case analysis of any non-raising event step (`PacketIn` or `ConnectionUp`). -/
theorem step_eq_some_cases (lb : LoadBalancer) (e : Event)
    (lb' : LoadBalancer) (outs : List Output)
    (h : step lb e = some (lb', outs)) :
    (¬ isNewClientRegistration lb e ∧
      lb'.clientIPs = lb.clientIPs ∧ lb'.clientMACs = lb.clientMACs ∧
      lb'.nextServerIndex = lb.nextServerIndex ∧ lb'.virtualIP = lb.virtualIP ∧
      lb'.serverIPs = lb.serverIPs ∧ lb'.serverMACs = lb.serverMACs) ∨
    (isNewClientRegistration lb e ∧
      ∃ ip mac, ip ∉ lb.clientIPs ∧
        lb'.clientIPs = lb.clientIPs ++ [ip] ∧
        lb'.clientMACs = lb.clientMACs ++ [mac] ∧
        lb'.nextServerIndex = (lb.nextServerIndex + 1) % lb.serverMACs.length ∧
        lb'.virtualIP = lb.virtualIP ∧ lb'.serverIPs = lb.serverIPs ∧
        lb'.serverMACs = lb.serverMACs ∧ 0 < lb.serverMACs.length) := by
  cases e with
  | packetIn ev =>
    rcases handlePacketIn_eq_some_cases lb ev lb' outs h with
      ⟨hn, h1, h2, h3, h4, h5, h6, -⟩ | ⟨hn, h1, h2, h3, h4, h5, h6, -, h7⟩
    · exact Or.inl ⟨hn, h1, h2, h3, h4, h5, h6⟩
    · exact Or.inr ⟨hn, ev.pkt.protosrc, ev.pkt.hwsrc, hn.2.2.2, h1, h2, h3, h4, h5, h6, h7⟩
  | connectionUp c =>
    obtain ⟨h1, -⟩ := Prod.mk.injEq .. ▸ Option.some.inj h
    subst h1
    exact Or.inl ⟨fun hn => hn, rfl, rfl, rfl, rfl, rfl, rfl⟩

/-- The initial state satisfies the invariant. -/
theorem inv_init : StateInv LoadBalancer.init := by
  refine ⟨List.nodup_nil, rfl, ?_⟩
  show 0 < 2
  omega

/-- Every non-raising step preserves the state invariant. -/
theorem inv_step (lb : LoadBalancer) (e : Event) (lb' : LoadBalancer)
    (outs : List Output) (h : step lb e = some (lb', outs)) (hi : StateInv lb) : StateInv lb' := by
  rcases step_eq_some_cases lb e lb' outs h with
    ⟨-, h1, h2, h3, -, -, h6⟩ | ⟨-, ip, mac, hip, h1, h2, h3, -, -, h6, h7⟩
  · exact ⟨h1 ▸ hi.1, by rw [h1, h2, hi.2.1], by rw [h3, h6]; exact hi.2.2⟩
  · refine ⟨?_, ?_, ?_⟩
    · rw [h1]
      simp [List.nodup_append, hi.1, hip]
    · rw [h1, h2]
      simp [hi.2.1]
    · rw [h3, h6]
      exact Nat.mod_lt _ h7

/-- Every reachable state satisfies the invariant. -/
theorem reachable_inv (lb : LoadBalancer) (h : Reachable lb) : StateInv lb := by
  induction h with
  | start => exact inv_init
  | next lb lb' e outs hr hs ih => exact inv_step lb e lb' outs hs ih

/-- Running events from a reachable state reaches only reachable states. -/
theorem run_reachable (es : List Event) (lb lb' : LoadBalancer) (outs : List Output)
    (hr : Reachable lb) (h : run lb es = some (lb', outs)) : Reachable lb' := by
  induction es generalizing lb outs with
  | nil =>
    obtain ⟨h1, -⟩ := Prod.mk.injEq .. ▸ Option.some.inj h
    exact h1 ▸ hr
  | cons e es ih =>
    unfold run at h
    cases hs : step lb e with
    | none => rw [hs] at h; exact Option.noConfusion h
    | some p =>
      rw [hs] at h
      dsimp only at h
      cases hrun : run p.1 es with
      | none => rw [hrun] at h; exact Option.noConfusion h
      | some q =>
        rw [hrun] at h
        dsimp only at h
        obtain ⟨h1, -⟩ := Prod.mk.injEq .. ▸ Option.some.inj h
        subst h1
        exact ih p.1 q.2 (Reachable.next lb p.1 e p.2 hr (by rw [hs])) (by rw [hrun])

/-- Processing a ClientToVirtual request from a fresh client in a state with
cursor `i % 2` registers the client, emits the rule and reply for backend
`i % 2`, and advances the cursor to `(i + 1) % 2`. -/
theorem handlePacketIn_mkState_new (R M : List Nat) (c i ip mac p : Nat)
    (hnew : ip ∉ R) :
    handlePacketIn (mkState R M c (i % 2)) (clientReqPkt ip mac p) =
      some (mkState (R ++ [ip]) (M ++ [mac]) c ((i + 1) % 2),
            newClientOut (i % 2) (ip, mac, p)) := by
  rcases Nat.mod_two_eq_zero_or_one i with hi | hi <;>
    rw [hi] <;>
    [rw [show (i + 1) % 2 = 1 by omega]; rw [show (i + 1) % 2 = 0 by omega]] <;>
    simp [handlePacketIn, mkState, clientReqPkt, newClientOut, mkReplyOut, hnew,
      LoadBalancer.init, OFPFC_ADD, ARP_TYPE, ARP_REQUEST, ARP_REPLY, OFPP_NONE]

/-- Running a sequence of ClientToVirtual requests from distinct fresh clients:
the client at sequence position `j` (so at overall index `i + j`) is assigned
backend index `(i + j) % 2`, and the cursor ends at `(i + length) % 2`. -/
theorem run_newClients (ts : List (Nat × Nat × Nat)) :
    ∀ (R M : List Nat) (c i : Nat),
      (∀ t ∈ ts, t.1 ∉ R) → (ts.map Prod.fst).Nodup →
      run (mkState R M c (i % 2)) (ts.map (fun t => clientReq t.1 t.2.1 t.2.2)) =
        some (mkState (R ++ ts.map Prod.fst) (M ++ ts.map (fun t => t.2.1)) c
                ((i + ts.length) % 2),
              outsFromIdx i ts) := by
  induction ts with
  | nil => intro R M c i _ _; simp [run, outsFromIdx]
  | cons t ts ih =>
    intro R M c i hfresh hnd
    have hnew : t.1 ∉ R := hfresh t (List.mem_cons_self t ts)
    have hstep : step (mkState R M c (i % 2)) (clientReq t.1 t.2.1 t.2.2) =
        some (mkState (R ++ [t.1]) (M ++ [t.2.1]) c ((i + 1) % 2),
          newClientOut (i % 2) (t.1, t.2.1, t.2.2)) :=
      handlePacketIn_mkState_new R M c i t.1 t.2.1 t.2.2 hnew
    have hmemmap : t.1 ∉ ts.map Prod.fst := (List.nodup_cons.mp hnd).1
    have hfresh' : ∀ t' ∈ ts, t'.1 ∉ R ++ [t.1] := by
      intro t' ht'
      rw [List.mem_append]
      rintro (hc | hc)
      · exact hfresh t' (List.mem_cons_of_mem t ht') hc
      · rw [List.mem_singleton] at hc
        exact hmemmap (hc ▸ List.mem_map_of_mem Prod.fst ht')
    have ihs := ih (R ++ [t.1]) (M ++ [t.2.1]) c (i + 1) hfresh' (List.nodup_cons.mp hnd).2
    rw [List.map_cons, run, hstep]
    dsimp only
    rw [ihs]
    dsimp only
    rw [show i + 1 + ts.length = i + (ts.length + 1) by omega]
    simp only [List.append_assoc, List.singleton_append, List.map_cons, List.length_cons]
    rfl

/-- C1: from the initial state (empty registry, cursor 0) with the configured
pool of 2 backends, after the link attaches, registering `N` distinct new
clients in sequence assigns backend indices `0, 1, ..., N-1` taken mod 2 in
order: the `i`-th client's flow rule rewrites the destination to
`serverIPs[i % 2]` and outputs to port `(i % 2) + 5`, and its ARP reply
carries `serverMACs[i % 2]` (see `newClientOut` and `outsFromIdx`); in
particular the 3rd distinct new client (index 2) wraps back to backend 0. -/
theorem round_robin_fairness (c : Nat) (ts : List (Nat × Nat × Nat))
    (hnd : (ts.map Prod.fst).Nodup) :
    run LoadBalancer.init
        (Event.connectionUp c :: ts.map (fun t => clientReq t.1 t.2.1 t.2.2)) =
      some (mkState (ts.map Prod.fst) (ts.map (fun t => t.2.1)) c (ts.length % 2),
            Output.flowMod OFPFC_DELETE {} [] :: outsFromIdx 0 ts) := by
  have h0 : step LoadBalancer.init (Event.connectionUp c) =
      some (mkState [] [] c (0 % 2), [Output.flowMod OFPFC_DELETE {} []]) := rfl
  rw [run, h0]
  dsimp only
  rw [run_newClients ts [] [] c 0 (fun t _ => List.not_mem_nil t.1) hnd]
  simp

/-- Witness for C1 at three distinct clients: indices 0, 1, then wrap to 0
(third rule rewrites to `10.0.0.5` and outputs to backend 0's port 5). -/
theorem round_robin_fairness_witness :
    run LoadBalancer.init
        (Event.connectionUp 0 ::
          ([(ipv4 10 0 0 1, 1, 1), (ipv4 10 0 0 2, 2, 2), (ipv4 10 0 0 3, 3, 3)].map
            (fun t => clientReq t.1 t.2.1 t.2.2))) =
      some (mkState [ipv4 10 0 0 1, ipv4 10 0 0 2, ipv4 10 0 0 3] [1, 2, 3] 0 1,
            [Output.flowMod OFPFC_DELETE {} [],
             Output.flowMod OFPFC_ADD
               { dl_type := some 0x0800
                 nw_proto := some 1
                 in_port := some 1
                 nw_dst := some (ipv4 10 0 0 10) }
               [OfpAction.set_dst (ipv4 10 0 0 5), OfpAction.output 5],
             mkReplyOut (ipv4 10 0 0 10) 5 (clientReqPkt (ipv4 10 0 0 1) 1 1).pkt 1,
             Output.flowMod OFPFC_ADD
               { dl_type := some 0x0800
                 nw_proto := some 1
                 in_port := some 2
                 nw_dst := some (ipv4 10 0 0 10) }
               [OfpAction.set_dst (ipv4 10 0 0 6), OfpAction.output 6],
             mkReplyOut (ipv4 10 0 0 10) 6 (clientReqPkt (ipv4 10 0 0 2) 2 2).pkt 2,
             Output.flowMod OFPFC_ADD
               { dl_type := some 0x0800
                 nw_proto := some 1
                 in_port := some 3
                 nw_dst := some (ipv4 10 0 0 10) }
               [OfpAction.set_dst (ipv4 10 0 0 5), OfpAction.output 5],
             mkReplyOut (ipv4 10 0 0 10) 5 (clientReqPkt (ipv4 10 0 0 3) 3 3).pkt 3]) :=
  round_robin_fairness 0 [(ipv4 10 0 0 1, 1, 1), (ipv4 10 0 0 2, 2, 2), (ipv4 10 0 0 3, 3, 3)]
    (by decide)

/-- C2 (amended): for every ClientToVirtual event (ARP request whose target is
the virtual address), new or already-registered requester alike, the handler
succeeds and emits exactly one ARP reply; its source network address is the
virtual address, its source hardware identity is the hardware identity of the
backend at the CURRENT round-robin cursor (`serverMACs[nextServerIndex]` at
processing time — for a new client this is the assigned backend, for an
already-registered client it need not be), its destination fields are the
requester's network address and hardware identity, and its egress action is
the event's ingress port. -/
theorem clientToVirtual_reply (lb : LoadBalancer) (ev : PacketInEvent) (c m : Nat)
    (heth : ev.ethType = ARP_TYPE) (hop : ev.pkt.opcode = ARP_REQUEST)
    (hdst : ev.pkt.protodst = lb.virtualIP)
    (hft : lb.flowTable = some c)
    (hmac : lb.serverMACs.get? lb.nextServerIndex = some m)
    (hips : lb.serverIPs.length = lb.serverMACs.length) :
    ∃ lb' outs, handlePacketIn lb ev = some (lb', outs) ∧
      outs.filter (fun o => isPacketOut o) =
        [Output.packetOut OFPP_NONE
          { src := m
            dst := ev.pkt.hwsrc
            ethType := ARP_TYPE
            payload :=
              { opcode := ARP_REPLY
                hwsrc := m
                hwdst := ev.pkt.hwsrc
                protosrc := lb.virtualIP
                protodst := ev.pkt.protosrc } }
          [OfpAction.output ev.port]] := by
  unfold handlePacketIn
  rw [if_pos ⟨heth, hop⟩, if_pos hdst, hmac]
  dsimp only
  by_cases hmem : ev.pkt.protosrc ∈ lb.clientIPs
  · rw [if_pos hmem, hft]
    exact ⟨lb, _, rfl, by simp [mkReplyOut, isPacketOut]⟩
  · rw [if_neg hmem]
    have hlt : lb.nextServerIndex < lb.serverIPs.length := by
      rw [hips]
      by_contra hge
      rw [List.get?_eq_none.mpr (Nat.le_of_not_lt hge)] at hmac
      exact Option.noConfusion hmac
    rw [List.get?_eq_get hlt, hft]
    dsimp only
    exact ⟨_, _, rfl, by simp [mkReplyOut, isPacketOut]⟩

/-- Witness for C2 (amended) at the first client request in an attached
empty-registry state. -/
theorem clientToVirtual_reply_witness :
    ∃ lb' outs,
      handlePacketIn (mkState [] [] 7 0) (clientReqPkt (ipv4 10 0 0 1) 1 3) =
        some (lb', outs) ∧
      outs.filter (fun o => isPacketOut o) =
        [Output.packetOut OFPP_NONE
          { src := 5
            dst := 1
            ethType := ARP_TYPE
            payload :=
              { opcode := ARP_REPLY
                hwsrc := 5
                hwdst := 1
                protosrc := ipv4 10 0 0 10
                protodst := ipv4 10 0 0 1 } }
          [OfpAction.output 3]] :=
  clientToVirtual_reply (mkState [] [] 7 0) (clientReqPkt (ipv4 10 0 0 1) 1 3) 7 5
    rfl rfl rfl rfl rfl rfl

/-- C2 (counterexample to the claim as stated): client `10.0.0.1` registers and
is assigned backend 0 (the installed rule rewrites to `10.0.0.5`, the first
reply carries backend 0's hardware identity 5); its second, identical request
is answered with a reply whose source hardware identity is 6 — backend 1's,
the backend at the now-advanced cursor — not the assigned backend's 5. -/
theorem clientToVirtual_assigned_mac_cex :
    run LoadBalancer.init
        [Event.connectionUp 0, clientReq (ipv4 10 0 0 1) 1 3,
         clientReq (ipv4 10 0 0 1) 1 3] =
      some (mkState [ipv4 10 0 0 1] [1] 0 1,
            [Output.flowMod OFPFC_DELETE {} [],
             Output.flowMod OFPFC_ADD
               { dl_type := some 0x0800
                 nw_proto := some 1
                 in_port := some 3
                 nw_dst := some (ipv4 10 0 0 10) }
               [OfpAction.set_dst (ipv4 10 0 0 5), OfpAction.output 5],
             mkReplyOut (ipv4 10 0 0 10) 5 (clientReqPkt (ipv4 10 0 0 1) 1 3).pkt 3,
             mkReplyOut (ipv4 10 0 0 10) 6 (clientReqPkt (ipv4 10 0 0 1) 1 3).pkt 3])
      ∧ (6 : Nat) ≠ 5 :=
  ⟨rfl, by decide⟩

/-- C3 (code evaluation): a ClientToVirtual ARP request arriving before any
`ConnectionUp` (so `flowTable` is still `None`) makes the handler raise
(`None.send`, modelled by `none`) instead of discarding the event with a
logged warning as the specification requires. -/
theorem packetIn_before_connection_raises :
    handlePacketIn LoadBalancer.init (clientReqPkt (ipv4 10 0 0 1) 1 3) = none := rfl

/-- C4: processing a ClientToVirtual request from an already-registered client
address returns the state completely unchanged (same registry lists, hence the
same registry position and record for that client, and the same cursor — zero
additional advances); and in every reachable state the client-address registry
has no duplicates, so each client address appears at most once. -/
theorem registration_idempotent :
    (∀ (lb : LoadBalancer) (ev : PacketInEvent) (lb' : LoadBalancer) (outs : List Output),
      ev.ethType = ARP_TYPE → ev.pkt.opcode = ARP_REQUEST →
      ev.pkt.protodst = lb.virtualIP → ev.pkt.protosrc ∈ lb.clientIPs →
      handlePacketIn lb ev = some (lb', outs) → lb' = lb) ∧
    (∀ lb : LoadBalancer, Reachable lb → lb.clientIPs.Nodup) := by
  constructor
  · intro lb ev lb' outs heth hop hdst hmem h
    unfold handlePacketIn at h
    rw [if_pos ⟨heth, hop⟩, if_pos hdst] at h
    cases hm : lb.serverMACs.get? lb.nextServerIndex with
    | none => rw [hm] at h; exact Option.noConfusion h
    | some m =>
      rw [hm] at h
      dsimp only at h
      rw [if_pos hmem] at h
      cases hft : lb.flowTable with
      | none => rw [hft] at h; exact Option.noConfusion h
      | some conn =>
        rw [hft] at h
        exact ((Prod.mk.injEq .. ▸ Option.some.inj h).1).symm
  · exact fun lb h => (reachable_inv lb h).1

/-- Witness for C4: a repeat request from registered client `10.0.0.1` leaves
the state fixed, and a concretely reached two-event state has a duplicate-free
registry. -/
theorem registration_idempotent_witness :
    (mkState [ipv4 10 0 0 1] [1] 0 1 = mkState [ipv4 10 0 0 1] [1] 0 1) ∧
    (mkState [ipv4 10 0 0 1] [1] 0 1).clientIPs.Nodup :=
  ⟨registration_idempotent.1 (mkState [ipv4 10 0 0 1] [1] 0 1)
      (clientReqPkt (ipv4 10 0 0 1) 1 3) (mkState [ipv4 10 0 0 1] [1] 0 1)
      [mkReplyOut (ipv4 10 0 0 10) 6 (clientReqPkt (ipv4 10 0 0 1) 1 3).pkt 3]
      rfl rfl rfl (by decide) rfl,
   registration_idempotent.2 (mkState [ipv4 10 0 0 1] [1] 0 1)
     (run_reachable [Event.connectionUp 0, clientReq (ipv4 10 0 0 1) 1 3]
       LoadBalancer.init (mkState [ipv4 10 0 0 1] [1] 0 1) _ Reachable.start rfl)⟩

/-- C5: the classifier selects exactly one of the three cases — ClientToVirtual
iff the target is the virtual address, BackendToClient iff the target is a
registered client address (and not the virtual address), Irrelevant iff the
target is neither; an ARP request classified Irrelevant is dropped with no
output and no state change; and a packet that is not an ARP request produces
no output and no state change in this handler. -/
theorem classifier_complete :
    (∀ (lb : LoadBalancer) (p : ArpPacket),
      (classify lb p = ArpCase.clientToVirtual ↔ p.protodst = lb.virtualIP) ∧
      (classify lb p = ArpCase.backendToClient ↔
        (¬ p.protodst = lb.virtualIP ∧ p.protodst ∈ lb.clientIPs)) ∧
      (classify lb p = ArpCase.irrelevant ↔
        (¬ p.protodst = lb.virtualIP ∧ p.protodst ∉ lb.clientIPs))) ∧
    (∀ (lb : LoadBalancer) (ev : PacketInEvent),
      ev.ethType = ARP_TYPE → ev.pkt.opcode = ARP_REQUEST →
      classify lb ev.pkt = ArpCase.irrelevant → handlePacketIn lb ev = some (lb, [])) ∧
    (∀ (lb : LoadBalancer) (ev : PacketInEvent),
      ¬ (ev.ethType = ARP_TYPE ∧ ev.pkt.opcode = ARP_REQUEST) →
      handlePacketIn lb ev = some (lb, [])) := by
  refine ⟨fun lb p => ?_, fun lb ev heth hop hcl => ?_, fun lb ev harp => ?_⟩
  · by_cases hdst : p.protodst = lb.virtualIP
    · simp [classify, hdst]
    · by_cases hmem : p.protodst ∈ lb.clientIPs
      · simp [classify, hdst, hmem]
      · simp [classify, hdst, hmem]
  · unfold classify at hcl
    by_cases hdst : ev.pkt.protodst = lb.virtualIP
    · rw [if_pos hdst] at hcl; cases hcl
    · rw [if_neg hdst] at hcl
      by_cases hmem : ev.pkt.protodst ∈ lb.clientIPs
      · rw [if_pos hmem] at hcl; cases hcl
      · unfold handlePacketIn
        rw [if_pos ⟨heth, hop⟩, if_neg hdst, if_neg hmem]
  · unfold handlePacketIn
    rw [if_neg harp]

/-- Witness for C5: a request for `10.0.0.99` (neither virtual nor registered)
is Irrelevant and dropped, and a non-ARP frame is ignored. -/
theorem classifier_complete_witness :
    ((classify (mkState [] [] 0 0)
        { opcode := ARP_REQUEST
          hwsrc := 7
          hwdst := 0
          protosrc := ipv4 10 0 0 7
          protodst := ipv4 10 0 0 99 } = ArpCase.clientToVirtual ↔
        (ipv4 10 0 0 99 : Nat) = (mkState [] [] 0 0).virtualIP) ∧
      (classify (mkState [] [] 0 0)
        { opcode := ARP_REQUEST
          hwsrc := 7
          hwdst := 0
          protosrc := ipv4 10 0 0 7
          protodst := ipv4 10 0 0 99 } = ArpCase.backendToClient ↔
        (¬ (ipv4 10 0 0 99 : Nat) = (mkState [] [] 0 0).virtualIP ∧
          (ipv4 10 0 0 99 : Nat) ∈ (mkState [] [] 0 0).clientIPs)) ∧
      (classify (mkState [] [] 0 0)
        { opcode := ARP_REQUEST
          hwsrc := 7
          hwdst := 0
          protosrc := ipv4 10 0 0 7
          protodst := ipv4 10 0 0 99 } = ArpCase.irrelevant ↔
        (¬ (ipv4 10 0 0 99 : Nat) = (mkState [] [] 0 0).virtualIP ∧
          (ipv4 10 0 0 99 : Nat) ∉ (mkState [] [] 0 0).clientIPs))) ∧
    handlePacketIn (mkState [] [] 0 0) (backendReqPkt (ipv4 10 0 0 7) 7 (ipv4 10 0 0 99) 2) =
      some (mkState [] [] 0 0, []) ∧
    handlePacketIn (mkState [] [] 0 0)
        { port := 3
          ethType := 0x0800
          pkt :=
            { opcode := ARP_REQUEST
              hwsrc := 1
              hwdst := 0
              protosrc := ipv4 10 0 0 1
              protodst := ipv4 10 0 0 10 } } =
      some (mkState [] [] 0 0, []) :=
  ⟨classifier_complete.1 (mkState [] [] 0 0)
     { opcode := ARP_REQUEST
       hwsrc := 7
       hwdst := 0
       protosrc := ipv4 10 0 0 7
       protodst := ipv4 10 0 0 99 },
   classifier_complete.2.1 (mkState [] [] 0 0)
     (backendReqPkt (ipv4 10 0 0 7) 7 (ipv4 10 0 0 99) 2) rfl rfl (by decide),
   classifier_complete.2.2 (mkState [] [] 0 0)
     { port := 3
       ethType := 0x0800
       pkt :=
         { opcode := ARP_REQUEST
           hwsrc := 1
           hwdst := 0
           protosrc := ipv4 10 0 0 1
           protodst := ipv4 10 0 0 10 } }
     (by decide)⟩

/-- C6: with virtual address `10.0.0.10` and backends `[10.0.0.5, 10.0.0.6]`,
the first new client `10.0.0.1` requesting the virtual address on ingress
port 3 installs exactly one rule matching ICMP over IPv4 (`dl_type 0x0800`,
`nw_proto 1`), ingress port 3, destination `10.0.0.10`, with actions rewrite
destination to `10.0.0.5` and output to backend 0's port (5), and emits one
ARP reply with source address `10.0.0.10`, source hardware identity 5
(backend 0's), and destination `10.0.0.1`. -/
theorem first_client_rule_and_reply :
    handlePacketIn { LoadBalancer.init with flowTable := some 0 }
        (clientReqPkt (ipv4 10 0 0 1) 1 3) =
      some (mkState [ipv4 10 0 0 1] [1] 0 1,
        [Output.flowMod OFPFC_ADD
           { dl_type := some 0x0800
             nw_proto := some 1
             in_port := some 3
             nw_dst := some (ipv4 10 0 0 10) }
           [OfpAction.set_dst (ipv4 10 0 0 5), OfpAction.output 5],
         Output.packetOut OFPP_NONE
           { src := 5
             dst := 1
             ethType := ARP_TYPE
             payload :=
               { opcode := ARP_REPLY
                 hwsrc := 5
                 hwdst := 1
                 protosrc := ipv4 10 0 0 10
                 protodst := ipv4 10 0 0 1 } }
           [OfpAction.output 3]]) := rfl

/-- C7: for every BackendToClient event (ARP request whose target is a
registered client address and not the virtual address), exactly one rule is
installed matching ICMP over IPv4, the event's ingress port, source the
requester's address and destination the matched client's address, with actions
rewrite source to the virtual address and output to the client's
registry-derived port (its 0-based registry position plus 1), and one ARP
reply is emitted whose source address is the matched client's address, whose
source hardware identity is that client's recorded hardware identity, and
whose destination fields mirror the requester. -/
theorem backendToClient_rule_and_reply (lb : LoadBalancer) (ev : PacketInEvent) (c m : Nat)
    (heth : ev.ethType = ARP_TYPE) (hop : ev.pkt.opcode = ARP_REQUEST)
    (hnv : ¬ ev.pkt.protodst = lb.virtualIP)
    (hmem : ev.pkt.protodst ∈ lb.clientIPs)
    (hmac : lb.clientMACs.get? (lb.clientIPs.indexOf ev.pkt.protodst) = some m)
    (hft : lb.flowTable = some c) :
    handlePacketIn lb ev =
      some (lb,
        [Output.flowMod OFPFC_ADD
           { dl_type := some 0x0800
             nw_proto := some 1
             in_port := some ev.port
             nw_src := some ev.pkt.protosrc
             nw_dst := some ev.pkt.protodst }
           [OfpAction.set_src lb.virtualIP,
            OfpAction.output (lb.clientIPs.indexOf ev.pkt.protodst + 1)],
         Output.packetOut OFPP_NONE
           { src := m
             dst := ev.pkt.hwsrc
             ethType := ARP_TYPE
             payload :=
               { opcode := ARP_REPLY
                 hwsrc := m
                 hwdst := ev.pkt.hwsrc
                 protosrc := ev.pkt.protodst
                 protodst := ev.pkt.protosrc } }
           [OfpAction.output ev.port]]) := by
  unfold handlePacketIn
  rw [if_pos ⟨heth, hop⟩, if_neg hnv, if_pos hmem]
  dsimp only
  rw [hmac, hft]
  rfl

/-- Witness for C7: backend `10.0.0.5` asking for registered client
`10.0.0.1`. -/
theorem backendToClient_rule_and_reply_witness :
    handlePacketIn (mkState [ipv4 10 0 0 1] [1] 0 1)
        (backendReqPkt (ipv4 10 0 0 5) 5 (ipv4 10 0 0 1) 5) =
      some (mkState [ipv4 10 0 0 1] [1] 0 1,
        [Output.flowMod OFPFC_ADD
           { dl_type := some 0x0800
             nw_proto := some 1
             in_port := some 5
             nw_src := some (ipv4 10 0 0 5)
             nw_dst := some (ipv4 10 0 0 1) }
           [OfpAction.set_src (ipv4 10 0 0 10), OfpAction.output 1],
         Output.packetOut OFPP_NONE
           { src := 1
             dst := 5
             ethType := ARP_TYPE
             payload :=
               { opcode := ARP_REPLY
                 hwsrc := 1
                 hwdst := 5
                 protosrc := ipv4 10 0 0 1
                 protodst := ipv4 10 0 0 5 } }
           [OfpAction.output 5]]) :=
  backendToClient_rule_and_reply (mkState [ipv4 10 0 0 1] [1] 0 1)
    (backendReqPkt (ipv4 10 0 0 5) 5 (ipv4 10 0 0 1) 5) 0 1
    rfl rfl (by decide) (by decide) rfl rfl

/-- C8: on every link-establishment event exactly one delete-all-rules intent
is emitted and nothing else, and the client registry and round-robin cursor
are unchanged, persisting across link re-establishment. -/
theorem link_reset (lb : LoadBalancer) (conn : Nat) :
    handleConnectionUp lb conn =
      ({ lb with flowTable := some conn }, [Output.flowMod OFPFC_DELETE {} []]) ∧
    (handleConnectionUp lb conn).1.clientIPs = lb.clientIPs ∧
    (handleConnectionUp lb conn).1.clientMACs = lb.clientMACs ∧
    (handleConnectionUp lb conn).1.nextServerIndex = lb.nextServerIndex :=
  ⟨rfl, rfl, rfl, rfl⟩

/-- C9: in every reachable state the round-robin cursor lies in
`[0, backendCount)`; a non-raising step advances it by exactly one position mod
`backendCount` when and only when a new client is registered, and leaves it
unchanged on repeat requests, BackendToClient events, Irrelevant events,
non-ARP packets and link establishment. -/
theorem cursor_in_range_and_advance :
    (∀ lb : LoadBalancer, Reachable lb →
      lb.nextServerIndex < lb.serverMACs.length) ∧
    (∀ (lb : LoadBalancer) (e : Event) (lb' : LoadBalancer) (outs : List Output),
      step lb e = some (lb', outs) →
      (isNewClientRegistration lb e →
        lb'.nextServerIndex = (lb.nextServerIndex + 1) % lb.serverMACs.length) ∧
      (¬ isNewClientRegistration lb e → lb'.nextServerIndex = lb.nextServerIndex)) := by
  constructor
  · exact fun lb h => (reachable_inv lb h).2.2
  · intro lb e lb' outs h
    rcases step_eq_some_cases lb e lb' outs h with
      ⟨hn, -, -, h3, -, -, -⟩ | ⟨hn, ip, mac, -, -, -, h3, -, -, -, -⟩
    · exact ⟨fun hc => absurd hc hn, fun _ => h3⟩
    · exact ⟨fun _ => h3, fun hc => absurd hn hc⟩

/-- Witness for C9: the initial cursor is in range; a first registration
advances 0 to 1 = (0 + 1) % 2; a repeat request leaves the cursor at 1. -/
theorem cursor_in_range_and_advance_witness :
    LoadBalancer.init.nextServerIndex < LoadBalancer.init.serverMACs.length ∧
    (mkState [ipv4 10 0 0 1] [1] 0 1).nextServerIndex =
      ((mkState [] [] 0 0).nextServerIndex + 1) % (mkState [] [] 0 0).serverMACs.length ∧
    (mkState [ipv4 10 0 0 1] [1] 0 1).nextServerIndex =
      (mkState [ipv4 10 0 0 1] [1] 0 1).nextServerIndex :=
  ⟨cursor_in_range_and_advance.1 LoadBalancer.init Reachable.start,
   (cursor_in_range_and_advance.2 (mkState [] [] 0 0)
      (clientReq (ipv4 10 0 0 1) 1 3) (mkState [ipv4 10 0 0 1] [1] 0 1)
      [Output.flowMod OFPFC_ADD
         { dl_type := some 0x0800
           nw_proto := some 1
           in_port := some 3
           nw_dst := some (ipv4 10 0 0 10) }
         [OfpAction.set_dst (ipv4 10 0 0 5), OfpAction.output 5],
       mkReplyOut (ipv4 10 0 0 10) 5 (clientReqPkt (ipv4 10 0 0 1) 1 3).pkt 3]
      rfl).1 ⟨rfl, rfl, rfl, by decide⟩,
   (cursor_in_range_and_advance.2 (mkState [ipv4 10 0 0 1] [1] 0 1)
      (clientReq (ipv4 10 0 0 1) 1 3) (mkState [ipv4 10 0 0 1] [1] 0 1)
      [mkReplyOut (ipv4 10 0 0 10) 6 (clientReqPkt (ipv4 10 0 0 1) 1 3).pkt 3]
      rfl).2 (fun hc => hc.2.2.2 (by decide))⟩

/-- C10: in every reachable state the client-address and client-hardware
registry lists have equal length, and for every registered client address the
hardware-identity lookup at its `indexOf` position succeeds (never out of
bounds). -/
theorem registry_lists_aligned :
    ∀ lb : LoadBalancer, Reachable lb →
      lb.clientMACs.length = lb.clientIPs.length ∧
      ∀ a ∈ lb.clientIPs,
        (lb.clientMACs.get? (lb.clientIPs.indexOf a)).isSome = true := by
  intro lb h
  refine ⟨(reachable_inv lb h).2.1, fun a ha => ?_⟩
  have hlt : lb.clientIPs.indexOf a < lb.clientMACs.length := by
    rw [(reachable_inv lb h).2.1]
    exact List.indexOf_lt_length.mpr ha
  rw [List.get?_eq_get hlt]
  rfl

/-- Witness for C10 at a concretely reached one-client state. -/
theorem registry_lists_aligned_witness :
    (mkState [ipv4 10 0 0 1] [1] 0 1).clientMACs.length =
      (mkState [ipv4 10 0 0 1] [1] 0 1).clientIPs.length ∧
    ∀ a ∈ (mkState [ipv4 10 0 0 1] [1] 0 1).clientIPs,
      ((mkState [ipv4 10 0 0 1] [1] 0 1).clientMACs.get?
        ((mkState [ipv4 10 0 0 1] [1] 0 1).clientIPs.indexOf a)).isSome = true :=
  registry_lists_aligned (mkState [ipv4 10 0 0 1] [1] 0 1)
    (run_reachable [Event.connectionUp 0, clientReq (ipv4 10 0 0 1) 1 3]
      LoadBalancer.init (mkState [ipv4 10 0 0 1] [1] 0 1) _ Reachable.start rfl)
